import Mathlib

/-!
Shallow embedding of vmjuggler (src/vmjuggler/base_objects.py and helpers.py):
a thin wrapper library over the pyVmomi VMware SDK.  Remote calls are modelled
by explicit outcome parameters; Python exceptions are modelled with `Except`.
-/

/-- The concrete kinds of raw VMware managed objects / data objects that the
wrappers distinguish (`vim.VirtualMachine`, `vim.Datacenter`, ..., and the
snapshot tree node `vim.vm.SnapshotTree`). -/
inductive VimKind where
  | virtualMachineK
  | datacenterK
  | folderK
  | virtualAppK
  | networkK
  | datastoreK
  | hostSystemK
  | snapshotTreeK
deriving DecidableEq, Repr

/-- The Python class name (`__name__`) of the vim type standing for each kind;
a function of the kind alone. -/
def VimKind.pyName : VimKind → String
  | .virtualMachineK => "vim.VirtualMachine"
  | .datacenterK => "vim.Datacenter"
  | .folderK => "vim.Folder"
  | .virtualAppK => "vim.VirtualApp"
  | .networkK => "vim.Network"
  | .datastoreK => "vim.Datastore"
  | .hostSystemK => "vim.HostSystem"
  | .snapshotTreeK => "vim.vm.SnapshotTree"

/-- A raw managed object handle: its concrete kind, its display name
(`el.name` in the scan of `_get_vc_objects`) and its managed object id. -/
structure VimObject where
  kind : VimKind
  name : String
  moId : String
deriving DecidableEq, Repr

/-- The fault kinds (`vim.fault.*` / `vmodl.*`) that base_objects.py mentions. -/
inductive Fault where
  | runtimeFault        -- vmodl.RuntimeFault (BaseVCObject._ex)
  | notSupported        -- vmodl.fault.NotSupported
  | taskInProgress      -- vim.fault.TaskInProgress
  | invalidState        -- vim.fault.InvalidState
  | invalidPowerState   -- vim.fault.InvalidPowerState
  | toolsUnavailable    -- vim.fault.ToolsUnavailable
  | invalidArgument     -- vim.fault.InvalidArgument
  | invalidName         -- vim.fault.InvalidName
  | notFound            -- vim.fault.NotFound
  | noPermission        -- vim.fault.NoPermission
deriving DecidableEq, Repr

/-- A Python exception escaping a method: either a local AttributeError or a
remote vim/vmodl fault propagating uncaught. -/
inductive PyError where
  | attributeError
  | vimFault (f : Fault)
deriving DecidableEq, Repr

/-- Outcome of one remote call: it either completes, or raises a fault. -/
inductive CallOutcome where
  | success
  | fault (f : Fault)
deriving DecidableEq, Repr

/-! ## VCenter._get_vc_objects (base_objects.py lines 190-235): name filter

```
r = []
if get_all:
    r = obj_list
elif name is not None:
    name = [name] if isinstance(name, str) else name
    cnt = len(name)
    for el in obj_list:
        el_name = el.name
        for n in name:
            if el_name == n:
                r.append(el)
                cnt -= 1
                break
        if cnt == 0:  # all names found
            break
```
The container view listing `obj_list` is the input; a single-string `name` is
already normalised to a one-element list.  `cnt` starts at `len(name)`, is
decremented once per appended element, and the outer loop breaks when it
reaches 0 (checked after every element). -/
def scanLoop (names : List String) : List VimObject → Nat → List VimObject
  | [], _ => []
  | el :: rest, cnt =>
      let matched := names.contains el.name
      let appended := if matched then [el] else []
      let cnt2 := if matched then cnt - 1 else cnt
      if cnt2 = 0 then appended
      else appended ++ scanLoop names rest cnt2

/-- The `r` computed by `_get_vc_objects` before the optional `return_type`
wrapping (the wrapping maps each element 1:1, preserving order and count, so
claims about which objects are returned are settled here). -/
def getVCObjectsFilter (getAll : Bool) (name : Option (List String))
    (objList : List VimObject) : List VimObject :=
  if getAll then objList
  else
    match name with
    | none => []
    | some ns => scanLoop ns objList ns.length

/-! ## VCenter.Decor.single_object (lines 54-65) and the get_* accessors -/

/-- Possible shapes of a `get_<kind>` result after the decorator ran. -/
inductive CollapseResult (α : Type) where
  | listR (l : List α)
  | single (x : α)
  | null
deriving DecidableEq, Repr

/-- `single_object` wrapper body:
```
r = fn(self, *args, **kwargs)
if len(r) == 1 and self.return_single:
    r = r[0]
elif len(r) == 0 and self.return_single:
    r = None
return r
``` -/
def singleObject {α : Type} : Bool → List α → CollapseResult α
  | true, [x] => CollapseResult.single x
  | true, [] => CollapseResult.null
  | _, r => CollapseResult.listR r

/-- `VCenter.get_vm` (lines 237-252) with `raw` in effect: delegates to
`_get_vc_objects` and passes the result list through `single_object`.
(The non-raw path wraps each element in `VirtualMachine`, 1:1 and
order-preserving, before the same decorator runs; the other `get_<kind>`
accessors are the same code with another kind.) -/
def getVM (returnSingle : Bool) (objList : List VimObject)
    (name : Option (List String)) (getAll : Bool) : CollapseResult VimObject :=
  singleObject returnSingle (getVCObjectsFilter getAll name objList)

/-! ## Wrapper construction (lines 435-444, 686-693, ..., 792-804)

Every wrapper's `__init__` runs
```
if isinstance(vc_object, expect):
    super().__init__(vc_object)
else:
    raise WrongObjectTypeError(self.__class__.__name__, expect.__name__)
```
so the raised error is built from the wrapper's own class name and the
expected vim type's name. -/

/-- One wrapper class: its `__class__.__name__` and the `expect` kind of its
`isinstance` check. -/
structure WrapperSpec where
  clsName : String
  expect : VimKind
deriving DecidableEq, Repr

/-- A wrapper construction: success keeps the handle, mismatch raises
`WrongObjectTypeError(self.__class__.__name__, expect.__name__)`, whose
payload pair we record verbatim. -/
def wrapperInit (w : WrapperSpec) (o : VimObject) :
    Except (String × String) VimObject :=
  if o.kind = w.expect then Except.ok o
  else Except.error (w.clsName, w.expect.pyName)

def vmWrapper : WrapperSpec := ⟨"VirtualMachine", VimKind.virtualMachineK⟩
def dcWrapper : WrapperSpec := ⟨"Datacenter", VimKind.datacenterK⟩
def folderWrapper : WrapperSpec := ⟨"Folder", VimKind.folderK⟩
def vappWrapper : WrapperSpec := ⟨"VApp", VimKind.virtualAppK⟩
def networkWrapper : WrapperSpec := ⟨"Network", VimKind.networkK⟩
def datastoreWrapper : WrapperSpec := ⟨"Datastore", VimKind.datastoreK⟩
def hostWrapper : WrapperSpec := ⟨"Host", VimKind.hostSystemK⟩
def snapshotWrapper : WrapperSpec := ⟨"VMSnapshot", VimKind.snapshotTreeK⟩

/-- All eight wrapper classes of base_objects.py. -/
def allWrappers : List WrapperSpec :=
  [vmWrapper, dcWrapper, folderWrapper, vappWrapper,
   networkWrapper, datastoreWrapper, hostWrapper, snapshotWrapper]

/-! ## Guarded execution: BaseVCObject._do (408-424) and VMJHelper.do_task
(helpers.py 34-53) -/

/-- `BaseVCObject._do`: run the task; a fault in the catch tuple
(`self._ex + catch_exception`) is logged and surfaced as `False`, any other
fault propagates.  Success returns `True`. -/
def doGuard (ex : List Fault) (outcome : CallOutcome) : Except PyError Bool :=
  match outcome with
  | CallOutcome.success => Except.ok true
  | CallOutcome.fault f =>
      if f ∈ ex then Except.ok false else Except.error (PyError.vimFault f)

/-- `VMJHelper.do_task`: awaits the task; `vim.fault.NoPermission` is always
tolerated in addition to the caller's list; a tolerated fault gives `False`,
any other propagates, success gives the (truthy) task result, modelled as
`true`. -/
def doTask (catchList : List Fault) (outcome : CallOutcome) : Except PyError Bool :=
  match outcome with
  | CallOutcome.success => Except.ok true
  | CallOutcome.fault f =>
      if f ∈ Fault.noPermission :: catchList then Except.ok false
      else Except.error (PyError.vimFault f)

/-- `VirtualMachine._ex` after `__init__` (lines 438-442):
`[vmodl.RuntimeFault] + [NotSupported, TaskInProgress, InvalidState,
InvalidPowerState]` (Python builds a set; only membership matters). -/
def vmEx : List Fault :=
  [Fault.runtimeFault, Fault.notSupported, Fault.taskInProgress,
   Fault.invalidState, Fault.invalidPowerState]

/-! ## VirtualMachine.reboot (lines 651-662)

```
ex = [vim.fault.TaskInProgress, vim.fault.ToolsUnavailable]
ex = list(set(self._ex + ex))
task = self.raw_obj.SRebootGuest
r = self._do(task, catch_exception=ex)
```
`task = self.raw_obj.SRebootGuest` is an attribute access on the raw
`vim.VirtualMachine` managed object, evaluated before `_do` is entered. -/

/-- The guest/VM task methods the vendor SDK defines on `vim.VirtualMachine`
among those this module refers to; attribute access for any other name raises
AttributeError.  The SDK defines `RebootGuest` — there is no `SRebootGuest`. -/
def vimVMMethods : List String :=
  ["PowerOnVM_Task", "PowerOffVM_Task", "ShutdownGuest", "TerminateVM",
   "SuspendVM_Task", "RebootGuest", "ResetVM_Task", "CreateSnapshot_Task"]

/-- Attribute lookup on the raw VM managed object. -/
def vmGetAttr (meth : String) : Except PyError String :=
  if vimVMMethods.contains meth then Except.ok meth
  else Except.error PyError.attributeError

/-- The catch list reboot builds: `self._ex + [TaskInProgress, ToolsUnavailable]`. -/
def rebootEx : List Fault := vmEx ++ [Fault.taskInProgress, Fault.toolsUnavailable]

/-- `VirtualMachine.reboot`, parameterised by what the remote call would do. -/
def VirtualMachineReboot (outcome : CallOutcome) : Except PyError Bool :=
  match vmGetAttr "SRebootGuest" with   -- line 660
  | Except.error e => Except.error e
  | Except.ok _ => doGuard rebootEx outcome

/-! ## VMSnapshot.rename (lines 834-851)

```
try:
    self.snap.RenameSnapshot(name=name, description=description)
    logging.info('Done')
    self.name = name if name else self.name
    return True
except vim.fault.InvalidArgument as e:
    logging.info(f'Error: ...')
    return False
```
`BaseVCObject.name` (lines 403-406) is a property with a getter only. -/

/-- The wrapper-local state rename touches: the cached `_name`. -/
structure SnapshotWrapperState where
  cachedName : String
deriving DecidableEq, Repr

/-- Python truthiness choice `name if name else self.name`: `None` and the
empty string are falsy. -/
def pyOptStr (v : Option String) (dflt : String) : String :=
  match v with
  | some s => if s = "" then dflt else s
  | none => dflt

/-- Attribute assignment `self.name = v`: `name` is declared as a read-only
property on `BaseVCObject` (getter only, no setter), so the property
descriptor rejects the assignment with AttributeError and the cached `_name`
is left untouched. -/
def setNameAttr (_s : SnapshotWrapperState) (_v : String) :
    Except PyError SnapshotWrapperState :=
  Except.error PyError.attributeError

/-- What the remote `RenameSnapshot` call does. -/
inductive RenameOutcome where
  | success
  | invalidArgumentFault       -- the one fault kind the except clause catches
  | otherFault (f : Fault)
deriving DecidableEq, Repr

/-- `VMSnapshot.rename`, returning the boolean result paired with the wrapper
state (or the escaping exception).  On success the code next executes
`self.name = name if name else self.name`; AttributeError raised there is not
`vim.fault.InvalidArgument`, so it propagates out of the method. -/
def VMSnapshotRename (s : SnapshotWrapperState) (name : Option String)
    (remote : RenameOutcome) : Except PyError (Bool × SnapshotWrapperState) :=
  match remote with
  | RenameOutcome.invalidArgumentFault => Except.ok (false, s)
  | RenameOutcome.otherFault f => Except.error (PyError.vimFault f)
  | RenameOutcome.success =>
      match setNameAttr s (pyOptStr name s.cachedName) with
      | Except.error e => Except.error e
      | Except.ok s2 => Except.ok (true, s2)

/-! ## The snapshot tree (vim.vm.SnapshotTree)

A tree node carries `name`, the id `_moId` of its `snapshot` reference, and
`childSnapshotList`. -/

/-- One `vim.vm.SnapshotTree` node. -/
inductive SnapTree where
  | mk (name : String) (moId : String) (children : List SnapTree)

/-- `snl.name`. -/
def SnapTree.name : SnapTree → String
  | SnapTree.mk n _ _ => n

/-- `snl.snapshot._moId`. -/
def SnapTree.moId : SnapTree → String
  | SnapTree.mk _ m _ => m

/-- `snl.childSnapshotList`. -/
def SnapTree.children : SnapTree → List SnapTree
  | SnapTree.mk _ _ c => c

/-- Python truthiness of the `mo_id` argument (`elif mo_id and ...`):
`None` and the empty string are falsy. -/
def pyTruthyOpt (v : Option String) : Bool :=
  match v with
  | some s => !(s == "")
  | none => false

/-- The inner `for el in r:` loop of `VirtualMachine._get_snaps`
(lines 475-483), scanning `r` and appending into `sn_list`:
```
if name is None and mo_id is None:
    sn_list.append(el)
elif el.name == name:
    sn_list.append(el)
    break
elif mo_id and el.snapshot._moId == mo_id:
    sn_list.append(el)
    break
```
(`el.name == name` with `name = None` is Python `str == None`, i.e. false). -/
def scanSnaps (name moId : Option String) : List SnapTree → List SnapTree
  | [] => []
  | el :: rest =>
      if name = none ∧ moId = none then el :: scanSnaps name moId rest
      else if name = some el.name then [el]
      else if pyTruthyOpt moId ∧ moId = some el.moId then [el]
      else scanSnaps name moId rest

/-- The outer loop of `VirtualMachine._get_snaps` (lines 470-484) over a
snapshot list `root` (the display-only `to_print`/`level` path is not taken:
those kwargs default to false/0):
```
sn_list = []
for snl in root:
    rr = snl
    r = self._get_snaps(root=snl.childSnapshotList, name=name, ..., mo_id=mo_id)
    r.insert(0, rr)
    for el in r:
        ...  # scanSnaps above, appending into sn_list
return sn_list
```
(The recursive call re-enters `_get_snaps` with an explicit `root`; its
`_is_snap_exists` guard is true on this path since the tree exists.) -/
def getSnapsForest (name moId : Option String) : List SnapTree → List SnapTree
  | [] => []
  | SnapTree.mk nm mo c :: rest =>
      scanSnaps name moId
          (SnapTree.mk nm mo c :: getSnapsForest name moId c)
        ++ getSnapsForest name moId rest
termination_by l => sizeOf l
decreasing_by
  all_goals (simp; try omega)

/-! ## The VM wrapper's snapshot-related state and methods -/

/-- The raw VM's `snapshot` property (`vim.vm.SnapshotInfo`): the root
snapshot list and the `_moId` of `currentSnapshot`. -/
structure VMSnapInfo where
  rootSnapshotList : List SnapTree
  currentSnapshot : String

/-- The slice of a raw `vim.VirtualMachine` these methods read: `snapshot`
is `None` (modelled `none`) when the VM has no snapshots. -/
structure VMObj where
  snapshot : Option VMSnapInfo

/-- `VirtualMachine._is_snap_exists` (lines 446-449):
`True if self.raw_obj.snapshot else False`. -/
def isSnapExists (vm : VMObj) : Bool :=
  vm.snapshot.isSome

/-- `VirtualMachine._get_snaps` entered with `root=None` (lines 462-469):
guard on `_is_snap_exists`, then walk `self.raw_obj.snapshot.rootSnapshotList`. -/
def getSnaps (vm : VMObj) (name moId : Option String) : List SnapTree :=
  match vm.snapshot with
  | none => []
  | some si => getSnapsForest name moId si.rootSnapshotList

/-- `VirtualMachine.get_snap` (lines 486-516), returning the matched snapshot
tree nodes or the escaping exception:
```
r = []
if name is None and not current and not get_all:
    return r
sn_name = None if get_all else name
current = False if get_all else current
if current:
    sn = self.raw_obj.snapshot.currentSnapshot
    snls = self._get_snaps(mo_id=sn._moId)
else:
    snls = self._get_snaps(name=sn_name)
```
When `self.raw_obj.snapshot` is `None`, the access `.currentSnapshot` raises
AttributeError.  The trailing wrapping loop (`raw` false) turns each node into
`VMSnapshot(el)`, 1:1 and order-preserving; we return the nodes themselves. -/
def getSnapVM (vm : VMObj) (name : Option String) (current getAll : Bool) :
    Except PyError (List SnapTree) :=
  if name = none ∧ current = false ∧ getAll = false then Except.ok []
  else
    let snName := if getAll then none else name
    let cur := if getAll then false else current
    if cur then
      match vm.snapshot with
      | none => Except.error PyError.attributeError
      | some si => Except.ok (getSnaps vm none (some si.currentSnapshot))
    else Except.ok (getSnaps vm snName none)

/-- `VMSnapshot.revert` (lines 853-864): `do_task` with catch list
`[vim.fault.NotFound]`; the remote outcome for reverting node `s` is
`env s`. -/
def snapshotRevert (env : SnapTree → CallOutcome) (s : SnapTree) :
    Except PyError Bool :=
  doTask [Fault.notFound] (env s)

/-- `VirtualMachine.revert` (lines 528-540):
```
if snapshot_name is None and not current:
    logging.info(...)
    return False
sn = self.get_snap(name=snapshot_name, current=current, raw=False)
return sn[0].revert() if len(sn) == 1 else False
``` -/
def vmRevert (vm : VMObj) (env : SnapTree → CallOutcome)
    (snapshotName : Option String) (current : Bool) : Except PyError Bool :=
  if snapshotName = none ∧ current = false then Except.ok false
  else
    match getSnapVM vm snapshotName current false with
    | Except.error e => Except.error e
    | Except.ok sn =>
        match sn with
        | [s] => snapshotRevert env s
        | _ => Except.ok false

/-- `VMSnapshot.remove` (lines 820-832): `do_task` with catch list
`[vim.fault.TaskInProgress]`; the remote outcome for removing node `s` is
`env s`. -/
def snapshotRemove (env : SnapTree → CallOutcome) (s : SnapTree) :
    Except PyError Bool :=
  doTask [Fault.taskInProgress] (env s)

/-- The result-combining loop of `VirtualMachine.remove_snap` (lines 575-579):
```
r = True
for el in sn:
    pr = el.remove(remove_children=remove_children, consolidate=consolidate)
    r = pr if not pr else r
return r
```
An uncaught fault from `el.remove` propagates out of the loop. -/
def removeLoop (env : SnapTree → CallOutcome) :
    List SnapTree → Bool → Except PyError Bool
  | [], r => Except.ok r
  | el :: rest, r =>
      match snapshotRemove env el with
      | Except.error e => Except.error e
      | Except.ok pr => removeLoop env rest (if pr = false then pr else r)

/-- `VirtualMachine.remove_snap` (lines 559-579). -/
def vmRemoveSnap (vm : VMObj) (env : SnapTree → CallOutcome)
    (name : Option String) (current removeAll : Bool) : Except PyError Bool :=
  if name = none ∧ current = false ∧ removeAll = false then Except.ok false
  else
    match getSnapVM vm name current removeAll with
    | Except.error e => Except.error e
    | Except.ok sn => removeLoop env sn true

/-- Whether removing node `s` under outcome environment `env` returned the
boolean `True` (as opposed to `False` or an escaping fault). -/
def removeOK (env : SnapTree → CallOutcome) (s : SnapTree) : Bool :=
  match snapshotRemove env s with
  | Except.ok true => true
  | _ => false

/-! ## Specification-side definition: depth-first pre-order flattening

Stated from the spec's words ("depth-first, pre-order (parent before
children, left-to-right)") to compare the traversal against. -/

/-- Depth-first pre-order flattening of a snapshot forest. -/
def preorderForest : List SnapTree → List SnapTree
  | [] => []
  | SnapTree.mk nm mo c :: rest =>
      SnapTree.mk nm mo c :: (preorderForest c ++ preorderForest rest)
termination_by l => sizeOf l
decreasing_by
  all_goals (simp; try omega)

/-! ## Concrete instances used by witnesses and counterexamples -/

/-- Snapshot node D (leaf). -/
def snapD : SnapTree := SnapTree.mk "D" "moD" []
/-- Snapshot node B with child D. -/
def snapB : SnapTree := SnapTree.mk "B" "moB" [snapD]
/-- Snapshot node C (leaf). -/
def snapC : SnapTree := SnapTree.mk "C" "moC" []
/-- Snapshot node A with children B and C. -/
def snapA : SnapTree := SnapTree.mk "A" "moA" [snapB, snapC]

/-- A VM whose snapshot tree is A→[B, C], B→[D]. -/
def vmABCD : VMObj :=
  ⟨some ⟨[snapA], "moA"⟩⟩

/-- Two root-level snapshots sharing the name "dup". -/
def vmTwoRoots : VMObj :=
  ⟨some ⟨[SnapTree.mk "dup" "mo1" [], SnapTree.mk "dup" "mo2" []], "mo1"⟩⟩

/-- A VM with no snapshots at all (`raw_obj.snapshot` is `None`). -/
def vmNoSnaps : VMObj := ⟨none⟩

/-- A VM with three root snapshots s1, s2, s3. -/
def vmThree : VMObj :=
  ⟨some ⟨[SnapTree.mk "s1" "mo1" [], SnapTree.mk "s2" "mo2" [],
          SnapTree.mk "s3" "mo3" []], "mo3"⟩⟩

/-- Removal outcomes where s1 fails with a tolerated fault and the rest
succeed. -/
def envFirstFails : SnapTree → CallOutcome :=
  fun s => if s.moId = "mo1" then CallOutcome.fault Fault.taskInProgress
           else CallOutcome.success

/-- The first match for name `n` in a single snapshot subtree, in depth-first
pre-order (the node itself, then its flattened descendants). Stated from the
spec's words ("returns the first depth-first match") to compare the search
against. -/
def firstMatch (n : String) (t : SnapTree) : Option SnapTree :=
  (t :: preorderForest t.children).find? (fun s => n == s.name)

/-- A raw VM handle named "n". -/
def objN : VimObject := ⟨VimKind.virtualMachineK, "n", "id-n"⟩
/-- A raw VM handle named "m". -/
def objM : VimObject := ⟨VimKind.virtualMachineK, "m", "id-m"⟩

/-- Every run of the name-filter scan returns a sublist of the listing. -/
theorem scanLoop_sublist (ns : List String) :
    ∀ (objs : List VimObject) (cnt : Nat), (scanLoop ns objs cnt).Sublist objs := by
  intro objs
  induction objs with
  | nil => intro cnt; simp [scanLoop]
  | cons el rest ih =>
      intro cnt
      cases hm : ns.contains el.name with
      | true =>
          simp only [scanLoop, hm]
          simp only [if_true]
          split
          · exact (List.nil_sublist rest).cons₂ el
          · simpa using (ih _).cons₂ el
      | false =>
          simp only [scanLoop, hm]
          simp only [Bool.false_eq_true, if_false]
          split
          · exact List.nil_sublist _
          · simpa using (ih _).cons el

/-- With no requested names the scan returns nothing. -/
theorem scanLoop_nil_names :
    ∀ (objs : List VimObject) (cnt : Nat), scanLoop [] objs cnt = [] := by
  intro objs
  induction objs with
  | nil => intro cnt; simp [scanLoop]
  | cons el rest ih =>
      intro cnt
      simp only [scanLoop, List.contains]
      simp [List.elem_nil, ih]

/-- At most `cnt` objects are appended before the scan stops. -/
theorem scanLoop_length (ns : List String) :
    ∀ (objs : List VimObject) (cnt : Nat), 1 ≤ cnt →
      (scanLoop ns objs cnt).length ≤ cnt := by
  intro objs
  induction objs with
  | nil => intro cnt _; simp [scanLoop]
  | cons el rest ih =>
      intro cnt hcnt
      cases hm : ns.contains el.name with
      | true =>
          simp only [scanLoop, hm, if_true]
          split
          · simpa using hcnt
          · rename_i hne
            have h1 : 1 ≤ cnt - 1 := Nat.one_le_iff_ne_zero.mpr hne
            have := ih (cnt - 1) h1
            simp only [List.singleton_append, List.length_cons]
            omega
      | false =>
          simp only [scanLoop, hm, Bool.false_eq_true, if_false]
          split
          · simp
          · simpa using ih cnt hcnt

/-- Every object the scan returns bears one of the requested names. -/
theorem scanLoop_name_mem (ns : List String) :
    ∀ (objs : List VimObject) (cnt : Nat) (o : VimObject),
      o ∈ scanLoop ns objs cnt → o.name ∈ ns := by
  intro objs
  induction objs with
  | nil => intro cnt o h; simp [scanLoop] at h
  | cons el rest ih =>
      intro cnt o h
      cases hm : ns.contains el.name with
      | true =>
          simp only [scanLoop, hm, if_true] at h
          split at h
          · simp at h
            subst h
            simpa using hm
          · simp at h
            rcases h with h | h
            · subst h
              simpa using hm
            · exact ih _ o h
      | false =>
          simp only [scanLoop, hm, Bool.false_eq_true, if_false] at h
          split at h
          · simp at h
          · simp at h
            exact ih _ o h

/-- In a list whose members have pairwise different names, at most one member
bears any given name. -/
theorem pairwise_name_countP (nm : String) :
    ∀ (l : List VimObject), l.Pairwise (fun a b => a.name ≠ b.name) →
      l.countP (fun o => o.name == nm) ≤ 1 := by
  intro l
  induction l with
  | nil => intro _; simp
  | cons a l ih =>
      intro hp
      rcases List.pairwise_cons.mp hp with ⟨h1, h2⟩
      rw [List.countP_cons]
      by_cases ha : a.name = nm
      · have hz : l.countP (fun o => o.name == nm) = 0 := by
          rw [List.countP_eq_zero]
          intro b hb
          simp only [beq_iff_eq]
          intro hbn
          exact h1 b hb (ha ▸ hbn ▸ rfl)
        simp [ha, hz]
      · have : (decide (a.name = nm)) = false := by simp [ha]
        simp only [beq_iff_eq]
        simp [this, ha]
        exact ih h2

/-- C1 (amended). For a retrieval call with `get_all` false and requested
names `ns` of length k, the scan returns a sublist of the listing, of length
at most k, each returned object bearing a requested name: the scan stops once
k matches have been made in total; and when the listed objects' names are
pairwise distinct, at most one object per requested name is returned. -/
theorem getVCObjects_name_filter (ns : List String) (objs : List VimObject) :
    (getVCObjectsFilter false (some ns) objs).Sublist objs ∧
    (getVCObjectsFilter false (some ns) objs).length ≤ ns.length ∧
    (∀ o ∈ getVCObjectsFilter false (some ns) objs, o.name ∈ ns) ∧
    (objs.Pairwise (fun a b => a.name ≠ b.name) →
      ∀ nm, (getVCObjectsFilter false (some ns) objs).countP
          (fun o => o.name == nm) ≤ 1) := by
  have hunf : getVCObjectsFilter false (some ns) objs = scanLoop ns objs ns.length := by
    simp [getVCObjectsFilter]
  rw [hunf]
  refine ⟨scanLoop_sublist ns objs ns.length, ?_, ?_, ?_⟩
  · cases ns with
    | nil => simp [scanLoop_nil_names]
    | cons n ns' => exact scanLoop_length _ objs _ (by simp)
  · intro o ho
    exact scanLoop_name_mem ns objs ns.length o ho
  · intro hp nm
    exact pairwise_name_countP nm _
      (hp.sublist (scanLoop_sublist ns objs ns.length))

theorem getVCObjects_name_filter_witness :
    (getVCObjectsFilter false (some ["n", "m"]) [objN, objM]).countP
        (fun o => o.name == "n") ≤ 1 ∧
    (getVCObjectsFilter false (some ["n", "m"]) [objN, objM]).length ≤ 2 :=
  ⟨(getVCObjects_name_filter ["n", "m"] [objN, objM]).2.2.2 (by decide) "n",
   (getVCObjects_name_filter ["n", "m"] [objN, objM]).2.1⟩

/-- C1 counterexample: with requested names ["n", "m"] (k = 2) and a listing
holding two objects named "n" followed by one named "m", the scan returns
BOTH objects named "n" (the second consumes the slot of the never-matched
"m"), so the result is not one-object-per-requested-name and the scan stops
before every requested name was matched. -/
theorem getVCObjects_name_filter_cex :
    getVCObjectsFilter false (some ["n", "m"])
        [⟨VimKind.virtualMachineK, "n", "a"⟩, ⟨VimKind.virtualMachineK, "n", "b"⟩,
         ⟨VimKind.virtualMachineK, "m", "c"⟩] =
      [⟨VimKind.virtualMachineK, "n", "a"⟩, ⟨VimKind.virtualMachineK, "n", "b"⟩] ∧
    (getVCObjectsFilter false (some ["n", "m"])
        [⟨VimKind.virtualMachineK, "n", "a"⟩, ⟨VimKind.virtualMachineK, "n", "b"⟩,
         ⟨VimKind.virtualMachineK, "m", "c"⟩]).countP (fun o => o.name == "n") = 2 := by
  decide

/-- C2 (code bug). For every snapshot wrapper state and every requested new
name: on an invalid-argument fault `rename` returns `False` with the cached
name unchanged, as claimed; but when the remote rename SUCCEEDS the method
does not return `True` with an updated cached name — the assignment
`self.name = ...` hits the getter-only `name` property and the resulting
AttributeError (not being `vim.fault.InvalidArgument`) escapes the method. -/
theorem rename_success_raises (s : SnapshotWrapperState) (name : Option String) :
    VMSnapshotRename s name RenameOutcome.success =
      Except.error PyError.attributeError ∧
    VMSnapshotRename s name RenameOutcome.invalidArgumentFault =
      Except.ok (false, s) :=
  ⟨rfl, rfl⟩

/-- C4 (code bug). `reboot()` never reaches the guarded remote call: for every
remote outcome it raises AttributeError, because line 660 looks up the
misspelled attribute `SRebootGuest` on the raw VM object — while the correctly
spelled `RebootGuest` attribute does exist on the vendor type. -/
theorem reboot_attribute_error (outcome : CallOutcome) :
    VirtualMachineReboot outcome = Except.error PyError.attributeError ∧
    vmGetAttr "RebootGuest" = Except.ok "RebootGuest" := by
  constructor
  · simp [VirtualMachineReboot, vmGetAttr, vimVMMethods]
  · simp [vmGetAttr, vimVMMethods]

/-- C5 (amended). For every wrapper class and every handle of the wrong kind,
construction raises the wrong-object-kind error whose payload is the
wrapper's own class name paired with the EXPECTED kind's name; the actual
kind of the supplied handle does not appear in the payload (which is the
same whatever the wrong kind was). -/
theorem wrapper_wrong_kind_payload :
    ∀ w ∈ allWrappers, ∀ o : VimObject, o.kind ≠ w.expect →
      wrapperInit w o = Except.error (w.clsName, w.expect.pyName) := by
  intro w _ o hk
  simp [wrapperInit, hk]

theorem wrapper_wrong_kind_payload_witness :
    wrapperInit vmWrapper ⟨VimKind.networkK, "net", "m1"⟩ =
      Except.error ("VirtualMachine", "vim.VirtualMachine") :=
  wrapper_wrong_kind_payload vmWrapper (by decide)
    ⟨VimKind.networkK, "net", "m1"⟩ (by decide)

/-- C5 counterexample: two constructions of the VirtualMachine wrapper on
handles of two DIFFERENT wrong kinds (a Network and a Datastore) raise
byte-for-byte identical errors, and neither payload component is the
supplied handle's kind name — so the error cannot carry the actual kind. -/
theorem wrapper_wrong_kind_cex :
    wrapperInit vmWrapper ⟨VimKind.networkK, "net", "m1"⟩ =
      wrapperInit vmWrapper ⟨VimKind.datastoreK, "ds", "m2"⟩ ∧
    wrapperInit vmWrapper ⟨VimKind.networkK, "net", "m1"⟩ =
      Except.error ("VirtualMachine", "vim.VirtualMachine") ∧
    VimKind.pyName VimKind.networkK ≠ "VirtualMachine" ∧
    VimKind.pyName VimKind.networkK ≠ "vim.VirtualMachine" :=
  ⟨rfl, rfl, by decide, by decide⟩

/-- C9. For every retrieval: with the collapse policy enabled a one-element
result list is returned as the bare element and an empty result as null,
while two or more results are returned as the unchanged list; with the policy
disabled, the (possibly empty) list is always returned as a list. -/
theorem get_collapse_policy (objList : List VimObject)
    (name : Option (List String)) (getAll : Bool) :
    (∀ x, getVCObjectsFilter getAll name objList = [x] →
      getVM true objList name getAll = CollapseResult.single x) ∧
    (getVCObjectsFilter getAll name objList = [] →
      getVM true objList name getAll = CollapseResult.null) ∧
    (2 ≤ (getVCObjectsFilter getAll name objList).length →
      getVM true objList name getAll =
        CollapseResult.listR (getVCObjectsFilter getAll name objList)) ∧
    (getVM false objList name getAll =
      CollapseResult.listR (getVCObjectsFilter getAll name objList)) := by
  refine ⟨?_, ?_, ?_, ?_⟩
  · intro x hx
    simp [getVM, hx, singleObject]
  · intro hx
    simp [getVM, hx, singleObject]
  · intro hlen
    unfold getVM
    match hr : getVCObjectsFilter getAll name objList with
    | [] => rw [hr] at hlen; simp at hlen
    | [x] => rw [hr] at hlen; simp at hlen
    | x :: y :: t => simp [singleObject]
  · unfold getVM
    match hr : getVCObjectsFilter getAll name objList with
    | [] => simp [singleObject]
    | [x] => simp [singleObject]
    | x :: y :: t => simp [singleObject]

theorem get_collapse_policy_witness :
    getVM true [objN] (some ["n"]) false = CollapseResult.single objN ∧
    getVM true [objN] (some ["zzz"]) false = CollapseResult.null ∧
    getVM false [objN] (some ["zzz"]) false = CollapseResult.listR [] :=
  ⟨(get_collapse_policy [objN] (some ["n"]) false).1 objN (by decide),
   (get_collapse_policy [objN] (some ["zzz"]) false).2.1 (by decide),
   by
     have h := (get_collapse_policy [objN] (some ["zzz"]) false).2.2.2
     rw [h]
     decide⟩

/-- Structural induction over snapshot forests: a property closed under
consing a node (given it holds for the node's children and for the rest). -/
theorem snapForestInd (P : List SnapTree → Prop) (hnil : P [])
    (hcons : ∀ nm mo c rest, P c → P rest → P (SnapTree.mk nm mo c :: rest)) :
    ∀ l : List SnapTree, P l
  | [] => hnil
  | SnapTree.mk nm mo c :: rest =>
      hcons nm mo c rest (snapForestInd P hnil hcons c)
        (snapForestInd P hnil hcons rest)
termination_by l => sizeOf l
decreasing_by
  all_goals (simp; try omega)

/-- With neither a name nor an id requested, the inner scan appends every
element. -/
theorem scanSnaps_all : ∀ l : List SnapTree, scanSnaps none none l = l := by
  intro l
  induction l with
  | nil => rfl
  | cons el rest ih => simp [scanSnaps, ih]

/-- With a name requested, the inner scan returns the first element of the
scanned list bearing that name, or nothing. -/
theorem scanSnaps_find (n : String) :
    ∀ l : List SnapTree,
      scanSnaps (some n) none l = ((l.find? (fun s => n == s.name)).toList) := by
  intro l
  induction l with
  | nil => rfl
  | cons el rest ih =>
      by_cases h : n = el.name
      · simp [scanSnaps, h, List.find?_cons_of_pos]
      · have hb : (n == el.name) = false := by simp [h]
        simp [scanSnaps, h, Ne.symm h, pyTruthyOpt, List.find?_cons_of_neg, hb, ih]

/-- The whole-tree traversal with no filter is exactly the depth-first
pre-order flattening. -/
theorem getSnapsForest_all :
    ∀ l : List SnapTree, getSnapsForest none none l = preorderForest l := by
  refine snapForestInd _ (by simp [getSnapsForest, preorderForest]) ?_
  intro nm mo c rest ihc ihrest
  simp only [getSnapsForest, preorderForest, scanSnaps_all, ihc, ihrest,
    List.cons_append]

/-- Elements located by `find?` satisfy the predicate (specialised reminder
for the chain below): the first depth-first match of `n` in a forest is the
head of its per-root first matches. -/
theorem preorderForest_find (n : String) :
    ∀ c : List SnapTree,
      (preorderForest c).find? (fun s => n == s.name) =
        (c.filterMap (firstMatch n)).head? := by
  intro c
  induction c with
  | nil => simp [preorderForest]
  | cons t rest ih =>
      cases t with
      | mk nm mo ch =>
          by_cases h : n = nm
          · have hb : (n == (SnapTree.mk nm mo ch).name) = true := by
              simp [SnapTree.name, h]
            simp only [preorderForest, firstMatch, List.filterMap_cons,
              List.find?_cons, hb, SnapTree.children]
            simp
          · have hb : (n == (SnapTree.mk nm mo ch).name) = false := by
              simp [SnapTree.name, h]
            simp only [preorderForest, firstMatch, List.filterMap_cons,
              List.find?_cons, hb, SnapTree.children, List.find?_append]
            rw [ih]
            cases hf : (preorderForest ch).find? (fun s => n == s.name) with
            | none => simp [hf]
            | some x => simp [hf]

/-- Name search over a snapshot forest: one first-depth-first match is
collected PER top-level root (the inner `break` stops the scan of one root's
subtree, the outer loop goes on to the next root). -/
theorem getSnapsForest_name (n : String) :
    ∀ roots : List SnapTree,
      getSnapsForest (some n) none roots = roots.filterMap (firstMatch n) := by
  refine snapForestInd _ (by simp [getSnapsForest]) ?_
  intro nm mo c rest ihc ihrest
  rw [List.filterMap_cons]
  simp only [getSnapsForest, scanSnaps_find, ihrest]
  by_cases h : n = nm
  · have hb : (n == (SnapTree.mk nm mo c).name) = true := by
      simp [SnapTree.name, h]
    simp only [List.find?_cons, hb]
    simp [firstMatch, List.find?_cons, hb]
  · have hb : (n == (SnapTree.mk nm mo c).name) = false := by
      simp [SnapTree.name, h]
    simp only [List.find?_cons, hb, ihc]
    have hstep : firstMatch n (SnapTree.mk nm mo c) =
        (List.filterMap (firstMatch n) c).head? := by
      rw [firstMatch]
      simp only [List.find?_cons, hb, SnapTree.children]
      exact preorderForest_find n c
    rw [hstep]
    have hall : ∀ x ∈ List.filterMap (firstMatch n) c, (n == x.name) = true := by
      intro x hx
      rcases List.mem_filterMap.mp hx with ⟨t, _, ht⟩
      rw [firstMatch] at ht
      have h2 := List.find?_some ht
      simpa using h2
    cases hl : List.filterMap (firstMatch n) c with
    | nil => simp
    | cons x xs =>
        have hx : (n == x.name) = true := hall x (by rw [hl]; exact List.mem_cons_self x xs)
        simp only [List.find?_cons, hx]
        simp

/-- C3 (amended). For every VM with a snapshot tree, the name search of
`get_snap(name=n)` (with `current`/`get_all` false) returns the first
depth-first pre-order match WITHIN EACH top-level root snapshot's subtree —
one match per root that contains one; in particular when the tree has a
single root (the common case) the result is exactly the first depth-first
pre-order match, so at most one node. -/
theorem get_snap_name_first_dfs (vm : VMObj) (si : VMSnapInfo) (n : String)
    (hs : vm.snapshot = some si) :
    getSnapVM vm (some n) false false =
      Except.ok (si.rootSnapshotList.filterMap (firstMatch n)) ∧
    (∀ t, si.rootSnapshotList = [t] →
      getSnapVM vm (some n) false false =
        Except.ok
          (((preorderForest si.rootSnapshotList).find?
              (fun s => n == s.name)).toList)) := by
  have hmain : getSnapVM vm (some n) false false =
      Except.ok (si.rootSnapshotList.filterMap (firstMatch n)) := by
    simp only [getSnapVM, getSnaps, hs]
    simp [getSnapsForest_name]
  refine ⟨hmain, ?_⟩
  intro t ht
  rw [hmain, ht]
  cases t with
  | mk nm mo c =>
      by_cases h : n = nm
      · have hb : (n == (SnapTree.mk nm mo c).name) = true := by
          simp [SnapTree.name, h]
        simp [firstMatch, preorderForest, List.find?_cons, hb]
      · have hb : (n == (SnapTree.mk nm mo c).name) = false := by
          simp [SnapTree.name, h]
        simp only [List.filterMap_cons, List.filterMap_nil, firstMatch,
          preorderForest, List.find?_cons, hb, SnapTree.children,
          List.append_nil]
        cases hf : (preorderForest c).find? (fun s => n == s.name) with
        | none => simp [hf]
        | some x => simp [hf]

theorem get_snap_name_first_dfs_witness :
    getSnapVM vmABCD (some "C") false false =
      Except.ok
        (((preorderForest [snapA]).find? (fun s => "C" == s.name)).toList) ∧
    getSnapVM vmABCD (some "C") false false = Except.ok [snapC] := by
  have h := (get_snap_name_first_dfs vmABCD ⟨[snapA], "moA"⟩ "C" rfl).2 snapA rfl
  refine ⟨h, ?_⟩
  rw [h]
  simp [preorderForest, snapA, snapB, snapC, snapD, SnapTree.name,
    List.find?_cons]

/-- C3 counterexample: a VM whose snapshot tree has TWO root-level snapshots
both named "dup".  `get_snap(name="dup")` returns BOTH nodes — the inner
`break` only stops the scan within one root's subtree, the outer loop over
`rootSnapshotList` keeps collecting — refuting "at most one result". -/
theorem get_snap_name_two_roots_cex :
    getSnapVM vmTwoRoots (some "dup") false false =
      Except.ok [SnapTree.mk "dup" "mo1" [], SnapTree.mk "dup" "mo2" []] := by
  simp [getSnapVM, getSnaps, vmTwoRoots, getSnapsForest, scanSnaps,
    pyTruthyOpt, SnapTree.name, SnapTree.moId]

/-- C6. For every VM with a snapshot tree, `get_snap(get_all=True)` (whatever
`name`/`current` were passed: `get_all` overrides them) returns the whole
tree flattened depth-first in pre-order, parent before children, siblings
left to right. -/
theorem get_snap_get_all_preorder (vm : VMObj) (si : VMSnapInfo)
    (name : Option String) (current : Bool) (hs : vm.snapshot = some si) :
    getSnapVM vm name current true =
      Except.ok (preorderForest si.rootSnapshotList) := by
  simp only [getSnapVM, getSnaps, hs]
  simp [getSnapsForest_all]

theorem get_snap_get_all_preorder_witness :
    getSnapVM vmABCD none false true =
      Except.ok [snapA, snapB, snapD, snapC] := by
  have h := get_snap_get_all_preorder vmABCD ⟨[snapA], "moA"⟩ none false rfl
  rw [h]
  simp [preorderForest, snapA, snapB, snapC, snapD]

/-- The removal loop: provided every removal yields a boolean (no fault
escapes), the loop returns the accumulator conjoined with the success of
every removal — one `False` makes the whole run `False` regardless of later
successes. -/
theorem removeLoop_all (env : SnapTree → CallOutcome) :
    ∀ (l : List SnapTree) (r : Bool),
      (∀ s ∈ l, ∃ b, snapshotRemove env s = Except.ok b) →
      removeLoop env l r = Except.ok (r && l.all (removeOK env)) := by
  intro l
  induction l with
  | nil => intro r _; simp [removeLoop]
  | cons el rest ih =>
      intro r h
      obtain ⟨b, hb⟩ := h el (List.mem_cons_self el rest)
      have hrest : ∀ s ∈ rest, ∃ b, snapshotRemove env s = Except.ok b :=
        fun s hs => h s (List.mem_cons_of_mem el hs)
      have hok : removeOK env el = b := by
        rw [removeOK, hb]
        cases b <;> rfl
      rw [removeLoop, hb]
      dsimp only
      rw [ih _ hrest, List.all_cons, hok]
      cases b <;> cases r <;> rfl

/-- C7. For every VM, removal-outcome environment and selector arguments
(at least one given): when snapshot resolution yields the matched list `l`
and each individual removal returns a boolean, `remove_snap` returns `True`
exactly when every removal succeeded — any `False` sticks even if later
removals succeed. -/
theorem remove_snap_all_must_succeed (vm : VMObj) (env : SnapTree → CallOutcome)
    (name : Option String) (current removeAll : Bool) (l : List SnapTree)
    (hres : getSnapVM vm name current removeAll = Except.ok l)
    (hargs : ¬(name = none ∧ current = false ∧ removeAll = false))
    (hb : ∀ s ∈ l, ∃ b, snapshotRemove env s = Except.ok b) :
    vmRemoveSnap vm env name current removeAll =
      Except.ok (l.all (removeOK env)) := by
  rw [vmRemoveSnap, if_neg hargs, hres]
  dsimp only
  rw [removeLoop_all env l true hb]
  simp

theorem remove_snap_all_must_succeed_witness :
    vmRemoveSnap vmThree envFirstFails none false true = Except.ok false := by
  have hres : getSnapVM vmThree none false true =
      Except.ok [SnapTree.mk "s1" "mo1" [], SnapTree.mk "s2" "mo2" [],
                 SnapTree.mk "s3" "mo3" []] := by
    simp [getSnapVM, getSnaps, vmThree, getSnapsForest, scanSnaps]
  have h := remove_snap_all_must_succeed vmThree envFirstFails none false true
    _ hres (by simp)
    (by
      intro s hs
      simp only [List.mem_cons, List.not_mem_nil, or_false] at hs
      rcases hs with rfl | rfl | rfl
      · exact ⟨false, by simp [snapshotRemove, envFirstFails, SnapTree.moId, doTask]⟩
      · exact ⟨true, by simp [snapshotRemove, envFirstFails, SnapTree.moId, doTask]⟩
      · exact ⟨true, by simp [snapshotRemove, envFirstFails, SnapTree.moId, doTask]⟩)
  rw [h]
  simp [removeOK, snapshotRemove, envFirstFails, SnapTree.moId, doTask]

/-- C8. For every VM and revert-outcome environment: `revert()` with neither
`snapshot_name` nor `current` returns `False` for every VM and environment
(no resolution, no remote call consulted); with arguments given, if
resolution returns a list of length ≠ 1 the result is `False`, and if it
returns exactly one node the call delegates to that snapshot's revert. -/
theorem revert_resolution (vm : VMObj) (env : SnapTree → CallOutcome) :
    (vmRevert vm env none false = Except.ok false) ∧
    (∀ (nm : Option String) (cur : Bool) (l : List SnapTree),
      getSnapVM vm nm cur false = Except.ok l →
      ¬(nm = none ∧ cur = false) → l.length ≠ 1 →
      vmRevert vm env nm cur = Except.ok false) ∧
    (∀ (nm : Option String) (cur : Bool) (s : SnapTree),
      getSnapVM vm nm cur false = Except.ok [s] →
      ¬(nm = none ∧ cur = false) →
      vmRevert vm env nm cur = snapshotRevert env s) := by
  refine ⟨by simp [vmRevert], ?_, ?_⟩
  · intro nm cur l hres hargs hlen
    rw [vmRevert, if_neg hargs, hres]
    match l, hlen with
    | [], _ => rfl
    | [s], h => simp at h
    | a :: b :: t, _ => rfl
  · intro nm cur s hres hargs
    rw [vmRevert, if_neg hargs, hres]

theorem revert_resolution_witness :
    vmRevert vmABCD (fun _ => CallOutcome.success) (some "B") false =
      Except.ok true ∧
    vmRevert vmNoSnaps (fun _ => CallOutcome.success) none false =
      Except.ok false := by
  constructor
  · have hres : getSnapVM vmABCD (some "B") false false = Except.ok [snapB] := by
      simp [getSnapVM, getSnaps, vmABCD, getSnapsForest, scanSnaps,
        SnapTree.name, snapA, snapB, snapC, snapD, pyTruthyOpt]
    have h := (revert_resolution vmABCD (fun _ => CallOutcome.success)).2.2
      (some "B") false snapB hres (by simp)
    rw [h]
    simp [snapshotRevert, doTask]
  · exact (revert_resolution vmNoSnaps (fun _ => CallOutcome.success)).1

/-- C10. For every VM whose raw handle has NO snapshot reference
(`raw_obj.snapshot` is `None`), `get_snap(current=True)` does not return the
empty list: line 504 dereferences `self.raw_obj.snapshot.currentSnapshot`
BEFORE any `_is_snap_exists` guard runs, so the call raises a local
AttributeError — and `revert(current=True)` propagates the same error
instead of a tolerated boolean `False`. -/
theorem get_snap_current_no_snapshot (vm : VMObj) (nm : Option String)
    (env : SnapTree → CallOutcome) (hs : vm.snapshot = none) :
    getSnapVM vm nm true false = Except.error PyError.attributeError ∧
    vmRevert vm env nm true = Except.error PyError.attributeError := by
  have h1 : getSnapVM vm nm true false = Except.error PyError.attributeError := by
    simp [getSnapVM, hs]
  refine ⟨h1, ?_⟩
  rw [vmRevert, if_neg (by simp), h1]

theorem get_snap_current_no_snapshot_witness :
    getSnapVM vmNoSnaps none true false = Except.error PyError.attributeError ∧
    vmRevert vmNoSnaps (fun _ => CallOutcome.success) none true =
      Except.error PyError.attributeError :=
  get_snap_current_no_snapshot vmNoSnaps none (fun _ => CallOutcome.success) rfl
